import Mathlib

/-!
# Verification of the caching dataset wrapper (kedro/io/cached_dataset.py)

This development gives a shallow embedding of `CachedDataset`, a wrapper that
holds one *delegate* (the underlying persistent data resource) and one *cache
body* (a volatile in-process store), and proves the load/save/exists/release
consistency properties of the wrapper.

The delegate is embedded as an abstract state machine `DatasetOps σ V`: its
`load`, `save` and `release` operations are arbitrary functions on a delegate
state type `σ`, so every theorem quantifying over `DatasetOps` holds for every
possible delegate.  Operations that the Python code performs by mutating
`self` are embedded by explicit state passing: each wrapper operation returns
its result together with the wrapper state after the call, and a raised
exception is an `Except.error` result.
-/

/-- Error values raised or propagated by the wrapper.  The Python code raises
`ValueError` at two distinct construction-time sites (tagged here as
`configurationError` and `invalidArgument`, matching the spec's taxonomy for
those two raise sites); `datasetError` stands for the cache body's own
`DatasetError`; `delegateError` stands for an arbitrary failure raised by a
delegate operation (the numeric code makes distinct delegate failures
distinguishable, so "propagated unchanged" is a real statement). -/
inductive KedroError where
  | configurationError (msg : String)
  | invalidArgument (msg : String)
  | datasetError (msg : String)
  | delegateError (code : Nat)
deriving DecidableEq

/-- A value inside a declarative configuration mapping. -/
inductive CVal where
  | bool (b : Bool)
  | str (s : String)
  | nat (n : Nat)
deriving DecidableEq

/-- A declarative configuration: a mapping from string keys to values,
embedded as an association list. -/
abbrev Config := List (String × CVal)

/-- Python `key in config` membership test on a dict. -/
def Config.hasKey (c : Config) (k : String) : Bool :=
  c.any (fun kv => kv.1 == k)

/-- Python `config[k] = v` dict assignment: overwrite the existing entry for
`k`, or append a fresh one. -/
def Config.set (c : Config) (k : String) (v : CVal) : Config :=
  if c.hasKey k then c.map (fun kv => if kv.1 == k then (k, v) else kv)
  else c ++ [(k, v)]

/-- Modelled from the spec: the reserved versioning marker key of a
declarative configuration ("a mapping that MAY contain a reserved
`versioned` boolean key").  The defining constant lives in
`kedro/io/core.py`, which is not under `src/`. -/
def VERSIONED_FLAG_KEY : String := "versioned"

/-- Modelled from the spec: a version pair
`(loadVersionId : string|unset, saveVersionId : string|unset)`.  The defining
class lives in `kedro/io/core.py`, which is not under `src/`. -/
structure Version where
  load : Option String
  save : Option String
deriving DecidableEq

/-- Modelled from the spec: the cache body (`MemoryDataset`, defined in
`kedro/io/memory_dataset.py`, which is not under `src/`): "a volatile store
with the same contract".  It either holds a value or holds nothing; the copy
policy governs object identity only, which a pure embedding does not observe,
so it is not part of the cache state. -/
abbrev MemoryDataset (V : Type) := Option V

/-- Cache body `exists()`: true iff the store holds data. -/
def MemoryDataset.mexists {V : Type} (c : MemoryDataset V) : Bool :=
  c.isSome

/-- Cache body `load()`: the held value, or a `DatasetError` when empty. -/
def MemoryDataset.mload {V : Type} (c : MemoryDataset V) : Except KedroError V :=
  match c with
  | some v => Except.ok v
  | none => Except.error (KedroError.datasetError
      "Data for MemoryDataset has not been saved yet.")

/-- Cache body `save(v)`: store the value. -/
def MemoryDataset.msave {V : Type} (_c : MemoryDataset V) (v : V) : MemoryDataset V :=
  some v

/-- Cache body `release()`: drop the held value. -/
def MemoryDataset.mrelease {V : Type} (_c : MemoryDataset V) : MemoryDataset V :=
  none

/-- The data-resource contract satisfied by every delegate, over an abstract
delegate state type `σ` and value type `V`.  `load` and `save` return the
call's outcome together with the delegate state after the call (so a delegate
may count its invocations, mutate on failure, etc.); `existsb` embeds
`exists() -> bool` and `release` embeds `release()`. -/
structure DatasetOps (σ V : Type) where
  load : σ → Except KedroError V × σ
  save : V → σ → Except KedroError Unit × σ
  existsb : σ → Bool
  release : σ → σ

/-- The wrapper state: the delegate state, the cache body, and the
construction-time `copy_mode` and `metadata` fields carried unchanged.
The constant `_EPHEMERAL = True` marker is not part of the state since it
never varies. -/
structure CachedDataset (σ V μ : Type) where
  dataset : σ
  cache : MemoryDataset V
  copyMode : Option String
  metadata : Option μ
deriving DecidableEq

/-- The wrapper construction argument: a dict (declarative configuration), an
`AbstractDataset` instance (a live delegate state), or anything else. -/
inductive DatasetArg (σ : Type) where
  | config (c : Config)
  | dataset (d : σ)
  | invalid

/-- Message of the `ValueError` raised on a configuration that already
declares itself versioned (quotes of the Python text omitted). -/
def duplicateVersioningMsg : String :=
  "Cached datasets should specify that they are versioned in the CachedDataset, not in the wrapped dataset."

/-- Message of the `ValueError` raised on an argument of the wrong type
(quotes of the Python text omitted). -/
def invalidArgMsg : String :=
  "The argument type of dataset should be either a dict/YAML representation of the dataset, or the actual dataset object."

/-- Embedding of `CachedDataset._from_config(config, version)`.  The external
factory `AbstractDataset.from_config` is passed in explicitly; the code calls
it with the literal name string, the configuration, and — when a version was
supplied (`if version:` is true exactly when `version is not None`, since a
two-field named tuple is always truthy) — the load/save version identifiers,
after marking the configuration versioned. -/
def CachedDataset.fromConfig {σ : Type}
    (factory : String → Config → Option String → Option String → Except KedroError σ)
    (config : Config) (version : Option Version) : Except KedroError σ :=
  if config.hasKey VERSIONED_FLAG_KEY then
    Except.error (KedroError.configurationError duplicateVersioningMsg)
  else
    match version with
    | some v => factory "_cached" (config.set VERSIONED_FLAG_KEY (CVal.bool true)) v.load v.save
    | none => factory "_cached" config none none

/-- Embedding of `CachedDataset.__init__(dataset, version, copy_mode,
metadata)`: resolve the delegate from the argument (via `_from_config` for a
dict, directly for a dataset instance, `ValueError` otherwise), then create a
fresh empty cache body and store the metadata. -/
def CachedDataset.init {σ V μ : Type}
    (factory : String → Config → Option String → Option String → Except KedroError σ)
    (arg : DatasetArg σ) (version : Option Version)
    (copyMode : Option String) (metadata : Option μ) :
    Except KedroError (CachedDataset σ V μ) :=
  match arg with
  | DatasetArg.config c =>
    match CachedDataset.fromConfig factory c version with
    | Except.ok d => Except.ok ⟨d, none, copyMode, metadata⟩
    | Except.error e => Except.error e
  | DatasetArg.dataset d => Except.ok ⟨d, none, copyMode, metadata⟩
  | DatasetArg.invalid => Except.error (KedroError.invalidArgument invalidArgMsg)

/-- Embedding of `CachedDataset._load`:
`data = cache.load() if cache.exists() else dataset.load()`, then
`if not cache.exists(): cache.save(data)`, then return `data`.  A raised
exception propagates with the state reached before the raise: the cache is
only written after a successful read. -/
def CachedDataset.load {σ V μ : Type} (ops : DatasetOps σ V)
    (w : CachedDataset σ V μ) : Except KedroError V × CachedDataset σ V μ :=
  let rs :=
    if w.cache.mexists then (w.cache.mload, w.dataset)
    else ops.load w.dataset
  match rs with
  | (Except.ok data, s) =>
    let cache2 := if ¬ w.cache.mexists then w.cache.msave data else w.cache
    (Except.ok data, ⟨s, cache2, w.copyMode, w.metadata⟩)
  | (Except.error e, s) => (Except.error e, ⟨s, w.cache, w.copyMode, w.metadata⟩)

/-- Embedding of `CachedDataset._save`: `dataset.save(data)` first, then
`cache.save(data)`.  A delegate failure propagates before the cache write is
reached, so the cache is mirrored only on delegate-write success. -/
def CachedDataset.save {σ V μ : Type} (ops : DatasetOps σ V)
    (w : CachedDataset σ V μ) (data : V) :
    Except KedroError Unit × CachedDataset σ V μ :=
  match ops.save data w.dataset with
  | (Except.ok _, s) => (Except.ok (), ⟨s, w.cache.msave data, w.copyMode, w.metadata⟩)
  | (Except.error e, s) => (Except.error e, ⟨s, w.cache, w.copyMode, w.metadata⟩)

/-- Embedding of `CachedDataset._exists`:
`return cache.exists() or dataset.exists()`.  Both existence checks are
queries under the data-resource contract, so the embedding is a pure
function of the wrapper state. -/
def CachedDataset.existsb {σ V μ : Type} (ops : DatasetOps σ V)
    (w : CachedDataset σ V μ) : Bool :=
  w.cache.mexists || ops.existsb w.dataset

/-- Embedding of `CachedDataset._release`: `cache.release()` then
`dataset.release()`. -/
def CachedDataset.release {σ V μ : Type} (ops : DatasetOps σ V)
    (w : CachedDataset σ V μ) : CachedDataset σ V μ :=
  ⟨ops.release w.dataset, w.cache.mrelease, w.copyMode, w.metadata⟩

/-- Embedding of `CachedDataset.__getstate__` (the pre-transfer hook run when
the wrapper is pickled): log a warning, call `cache.release()` — and only the
cache body's release, the delegate is not asked to release — then capture the
remaining state.  The first component is the list of warning messages logged
by the call (the Python message is interpolated with `str(self)`; the
embedding keeps the fixed tail of the message). -/
def CachedDataset.getstate {σ V μ : Type} (w : CachedDataset σ V μ) :
    List String × CachedDataset σ V μ :=
  (["clearing cache to pickle."], ⟨w.dataset, w.cache.mrelease, w.copyMode, w.metadata⟩)

/-- Embedding of `CachedDataset._describe`:
`{"dataset": dataset.describe(), "cache": cache.describe()}`, with each inner
description abstracted by the state it describes. -/
def CachedDataset.describe {σ V μ : Type} (w : CachedDataset σ V μ) :
    σ × MemoryDataset V :=
  (w.dataset, w.cache)

/-! ## Concrete instances used to instantiate the theorems -/

/-- A concrete delegate over state `Nat`: `load` yields 7 and bumps the
state (so delegate invocations are observable), `save` succeeds and bumps
the state, `existsb` is true on a positive state, `release` is the
identity. -/
def opsCounting : DatasetOps Nat Nat :=
  ⟨fun s => (Except.ok 7, s + 1), fun _v s => (Except.ok (), s + 1),
   fun s => decide (0 < s), fun s => s⟩

/-- A second concrete delegate, everywhere different from `opsCounting`, used
to show delegate-independence of cache-served calls. -/
def opsOther : DatasetOps Nat Nat :=
  ⟨fun s => (Except.ok 99, s + 5), fun _v s => (Except.ok (), s + 5),
   fun _s => false, fun s => s + 3⟩

/-- A concrete delegate whose `load` and `save` both fail, with distinct
errors, while still mutating their own state. -/
def opsFailing : DatasetOps Nat Nat :=
  ⟨fun s => (Except.error (KedroError.delegateError 3), s + 1),
   fun _v s => (Except.error (KedroError.delegateError 4), s + 2),
   fun _s => false, fun s => s⟩

/-- A fresh wrapper over delegate state 0 with an empty cache. -/
def w0 : CachedDataset Nat Nat Nat := ⟨0, none, none, none⟩

/-- A wrapper whose cache already holds 5. -/
def wHit : CachedDataset Nat Nat Nat := ⟨2, some 5, none, none⟩

/-! ## Claims -/

/-- C1: `load` consults the cache body first: on a cache hit it returns the
cached value with the wrapper unchanged, and the result is the same for every
delegate (the delegate is not invoked); on a miss it reads the delegate's
value, writes it into the cache body (fill-on-miss) and returns it.
Consequently, starting from a cache miss with a delegate returning `v`, two
successive loads with no intervening save yield `v` both times and only the
first call invokes the delegate: the second call's result is the same for
every delegate and leaves the delegate state unchanged. -/
theorem load_cache_first_fill_on_miss_idempotent
    {σ V μ : Type} (ops ops2 : DatasetOps σ V)
    (wh w : CachedDataset σ V μ) (u v : V) (s : σ)
    (hhit : wh.cache = some u)
    (hmiss : w.cache = none)
    (hdel : ops.load w.dataset = (Except.ok v, s)) :
    CachedDataset.load ops wh = (Except.ok u, wh) ∧
    CachedDataset.load ops2 wh = (Except.ok u, wh) ∧
    CachedDataset.load ops w = (Except.ok v, ⟨s, some v, w.copyMode, w.metadata⟩) ∧
    CachedDataset.load ops2 ⟨s, some v, w.copyMode, w.metadata⟩ =
      (Except.ok v, ⟨s, some v, w.copyMode, w.metadata⟩) := by
  obtain ⟨dh, ch, cmh, mdh⟩ := wh
  obtain ⟨d, c, cm, md⟩ := w
  dsimp only at hhit hmiss hdel ⊢
  subst hhit
  subst hmiss
  refine ⟨?_, ?_, ?_, ?_⟩ <;>
    simp [CachedDataset.load, MemoryDataset.mexists, MemoryDataset.mload,
      MemoryDataset.msave, hdel]

/-- C1 instantiated: a hit serves the cached 5 for either delegate; from the
fresh wrapper the delegate value 7 is returned, cached, and served again
without the (different) second delegate being consulted. -/
theorem load_cache_first_fill_on_miss_idempotent_witness :
    CachedDataset.load opsCounting wHit = (Except.ok 5, wHit) ∧
    CachedDataset.load opsOther wHit = (Except.ok 5, wHit) ∧
    CachedDataset.load opsCounting w0 = (Except.ok 7, ⟨1, some 7, none, none⟩) ∧
    CachedDataset.load opsOther (⟨1, some 7, none, none⟩ : CachedDataset Nat Nat Nat) =
      (Except.ok 7, ⟨1, some 7, none, none⟩) :=
  load_cache_first_fill_on_miss_idempotent opsCounting opsOther wHit w0 5 7 1 rfl rfl rfl

/-- C2: a delegate failure during `load` (on a cache miss, the only case in
which the delegate is consulted) or during `save` propagates to the caller
unchanged, and the cache body is exactly as it was before the failed call:
no fill on read failure, no mirror on write failure. -/
theorem load_save_failure_propagation
    {σ V μ : Type} (ops opsF : DatasetOps σ V)
    (w w2 : CachedDataset σ V μ) (v : V) (e e2 : KedroError) (s s2 : σ)
    (hmiss : w.cache = none)
    (hload : ops.load w.dataset = (Except.error e, s))
    (hsave : opsF.save v w2.dataset = (Except.error e2, s2)) :
    CachedDataset.load ops w = (Except.error e, ⟨s, w.cache, w.copyMode, w.metadata⟩) ∧
    CachedDataset.save opsF w2 v = (Except.error e2, ⟨s2, w2.cache, w2.copyMode, w2.metadata⟩) := by
  obtain ⟨d, c, cm, md⟩ := w
  obtain ⟨d2, c2, cm2, md2⟩ := w2
  dsimp only at hmiss hload hsave ⊢
  subst hmiss
  refine ⟨?_, ?_⟩ <;>
    simp [CachedDataset.load, CachedDataset.save, MemoryDataset.mexists, hload, hsave]

/-- C2 instantiated: on the fresh wrapper the failing delegate's distinct
load and save errors come back unchanged and the cache stays empty. -/
theorem load_save_failure_propagation_witness :
    CachedDataset.load opsFailing w0 =
      (Except.error (KedroError.delegateError 3), ⟨1, none, none, none⟩) ∧
    CachedDataset.save opsFailing w0 9 =
      (Except.error (KedroError.delegateError 4), ⟨2, none, none, none⟩) :=
  load_save_failure_propagation opsFailing opsFailing w0 w0 9
    (KedroError.delegateError 3) (KedroError.delegateError 4) 1 2 rfl rfl rfl

/-- C3: `save v` writes to the delegate first (the resulting delegate state
is the delegate's post-save state) and mirrors `v` into the cache body only
on delegate-write success; after a successful `save v`, a subsequent `load`
returns `v` served purely from the cache (the same result for every
delegate, whose state is untouched); on delegate-write failure no mirror
occurs. -/
theorem save_write_then_read
    {σ V μ : Type} (ops opsF ops2 : DatasetOps σ V)
    (w w2 : CachedDataset σ V μ) (v : V) (s s2 : σ) (e : KedroError)
    (hok : ops.save v w.dataset = (Except.ok (), s))
    (hfail : opsF.save v w2.dataset = (Except.error e, s2)) :
    CachedDataset.save ops w v = (Except.ok (), ⟨s, some v, w.copyMode, w.metadata⟩) ∧
    CachedDataset.load ops2 ⟨s, some v, w.copyMode, w.metadata⟩ =
      (Except.ok v, ⟨s, some v, w.copyMode, w.metadata⟩) ∧
    CachedDataset.save opsF w2 v = (Except.error e, ⟨s2, w2.cache, w2.copyMode, w2.metadata⟩) := by
  obtain ⟨d, c, cm, md⟩ := w
  obtain ⟨d2, c2, cm2, md2⟩ := w2
  dsimp only at hok hfail ⊢
  refine ⟨?_, ?_, ?_⟩ <;>
    simp [CachedDataset.save, CachedDataset.load, MemoryDataset.mexists,
      MemoryDataset.mload, MemoryDataset.msave, hok, hfail]

/-- C3 instantiated: saving 9 through the succeeding delegate mirrors 9 into
the cache, a later load serves 9 for a different delegate, and the failing
delegate's save leaves the cache empty. -/
theorem save_write_then_read_witness :
    CachedDataset.save opsCounting w0 9 = (Except.ok (), ⟨1, some 9, none, none⟩) ∧
    CachedDataset.load opsOther (⟨1, some 9, none, none⟩ : CachedDataset Nat Nat Nat) =
      (Except.ok 9, ⟨1, some 9, none, none⟩) ∧
    CachedDataset.save opsFailing w0 9 =
      (Except.error (KedroError.delegateError 4), ⟨2, none, none, none⟩) :=
  save_write_then_read opsCounting opsFailing opsOther w0 w0 9 1 2
    (KedroError.delegateError 4) rfl rfl

/-- C4: `exists` is true in all three populated cases — cache-only,
delegate-only, both — and false when neither holds data; when the cache body
holds data the result is true for every delegate (a cache-first
short-circuit: the delegate need not be queried).  The wrapper code returns
the bare disjunction of the two existence queries, so the embedding is a
pure function and the call has no side effects by construction. -/
theorem exists_disjunction_cache_first
    {σ V μ : Type} (ops ops2 : DatasetOps σ V)
    (wc wd wb wn : CachedDataset σ V μ) (u ub : V)
    (hc1 : wc.cache = some u) (hc2 : ops.existsb wc.dataset = false)
    (hd1 : wd.cache = none) (hd2 : ops.existsb wd.dataset = true)
    (hb1 : wb.cache = some ub) (hb2 : ops.existsb wb.dataset = true)
    (hn1 : wn.cache = none) (hn2 : ops.existsb wn.dataset = false) :
    CachedDataset.existsb ops wc = true ∧
    CachedDataset.existsb ops wd = true ∧
    CachedDataset.existsb ops wb = true ∧
    CachedDataset.existsb ops wn = false ∧
    CachedDataset.existsb ops2 wc = true ∧
    CachedDataset.existsb ops2 wb = true := by
  refine ⟨?_, ?_, ?_, ?_, ?_, ?_⟩ <;>
    simp [CachedDataset.existsb, MemoryDataset.mexists, hc1, hc2, hd1, hd2,
      hb1, hb2, hn1, hn2]

/-- C4 instantiated on `opsCounting` (delegate existence: positive state):
cache-only (state 0, cache 5), delegate-only (state 1, empty cache), both
(state 1, cache 5), neither (fresh wrapper); the populated-cache wrappers
also report true under a delegate whose `existsb` is constantly false. -/
theorem exists_disjunction_cache_first_witness :
    CachedDataset.existsb opsCounting (⟨0, some 5, none, none⟩ : CachedDataset Nat Nat Nat) = true ∧
    CachedDataset.existsb opsCounting (⟨1, none, none, none⟩ : CachedDataset Nat Nat Nat) = true ∧
    CachedDataset.existsb opsCounting (⟨1, some 5, none, none⟩ : CachedDataset Nat Nat Nat) = true ∧
    CachedDataset.existsb opsCounting w0 = false ∧
    CachedDataset.existsb opsOther (⟨0, some 5, none, none⟩ : CachedDataset Nat Nat Nat) = true ∧
    CachedDataset.existsb opsOther (⟨1, some 5, none, none⟩ : CachedDataset Nat Nat Nat) = true :=
  exists_disjunction_cache_first opsCounting opsOther
    ⟨0, some 5, none, none⟩ ⟨1, none, none, none⟩ ⟨1, some 5, none, none⟩ w0
    5 5 rfl rfl rfl rfl rfl rfl rfl rfl

/-- A concrete external factory: resolves every configuration to the
delegate state 42. -/
def fac42 : String → Config → Option String → Option String → Except KedroError Nat :=
  fun _name _config _lv _sv => Except.ok 42

/-- A configuration that already declares itself versioned. -/
def cfgV : Config := [(VERSIONED_FLAG_KEY, CVal.bool true)]

/-- A configuration without the versioning marker. -/
def cfgT : Config := [("type", CVal.str "pandas.CSVDataset")]

/-- A concrete version pair with a pinned load version and an unset save
version. -/
def verA : Version := ⟨some "2019-01-01T00.00.00", none⟩

/-- C5: a declarative configuration that already contains the versioning
marker makes construction fail with the duplicate-versioning
`ConfigurationError`, for every version argument (a supplied pair included)
and for every factory — so the check happens before, and independently of,
factory resolution — and no wrapper is constructed. -/
theorem fromConfig_duplicate_versioning
    {σ V μ : Type}
    (factory : String → Config → Option String → Option String → Except KedroError σ)
    (config : Config) (version : Option Version)
    (cm : Option String) (md : Option μ)
    (hkey : config.hasKey VERSIONED_FLAG_KEY = true) :
    CachedDataset.fromConfig factory config version =
      Except.error (KedroError.configurationError duplicateVersioningMsg) ∧
    (CachedDataset.init factory (DatasetArg.config config) version cm md
        : Except KedroError (CachedDataset σ V μ)) =
      Except.error (KedroError.configurationError duplicateVersioningMsg) := by
  refine ⟨?_, ?_⟩ <;>
    simp [CachedDataset.fromConfig, CachedDataset.init, hkey]

/-- C5 instantiated: the versioned configuration is rejected even with a
version pair supplied and a factory that would succeed. -/
theorem fromConfig_duplicate_versioning_witness :
    CachedDataset.fromConfig fac42 cfgV (some verA) =
      Except.error (KedroError.configurationError duplicateVersioningMsg) ∧
    (CachedDataset.init fac42 (DatasetArg.config cfgV) (some verA) none none
        : Except KedroError (CachedDataset Nat Nat Nat)) =
      Except.error (KedroError.configurationError duplicateVersioningMsg) :=
  fromConfig_duplicate_versioning fac42 cfgV (some verA) none (none : Option Nat)
    (by decide)

/-- A delegate whose `release` visibly changes its state, separating "the
delegate was asked to release" from "the delegate was left alone". -/
def opsRel : DatasetOps Nat Nat :=
  ⟨fun s => (Except.ok 7, s), fun _v s => (Except.ok (), s),
   fun _s => false, fun s => s + 1⟩

/-- A wrapper with a populated cache over delegate state 0. -/
def w6 : CachedDataset Nat Nat Nat := ⟨0, some 5, none, none⟩

/-- C6 counterexample: the pre-transfer hook does NOT invoke the same
release semantics as `release()`.  The code of `__getstate__` calls only
`self._cache.release()`, never `self._dataset.release()`: over a delegate
whose `release` bumps its state, the state captured by the hook differs
from the state `release()` produces. -/
theorem getstate_differs_from_release :
    ¬ (CachedDataset.getstate w6).2 = CachedDataset.release opsRel w6 := by
  decide

/-- C6 amended: the pre-transfer hook (`__getstate__`) clears the cache body
only — it invokes the cache body's `release()` but not the delegate's — and
observably logs a warning; after the hook the cache body reports
`exists() == false` while the delegate's state, and hence its own existence
and persisted data, is exactly as before. -/
theorem getstate_clears_cache_only
    {σ V μ : Type} (w : CachedDataset σ V μ) :
    CachedDataset.getstate w =
      (["clearing cache to pickle."], ⟨w.dataset, none, w.copyMode, w.metadata⟩) ∧
    MemoryDataset.mexists (CachedDataset.getstate w).2.cache = false ∧
    (CachedDataset.getstate w).2.dataset = w.dataset := by
  refine ⟨?_, ?_, ?_⟩ <;>
    simp [CachedDataset.getstate, MemoryDataset.mrelease, MemoryDataset.mexists]

/-- C7: `release()` unconditionally clears the cache body (which then
reports no data) and asks the cache body and the delegate each to release
their own resources — the delegate state is exactly its own `release()`
result, nothing else is done to it — and a `load()` after `release()`
re-reads from the delegate and refills the cache. -/
theorem release_clears_cache_reloads_delegate
    {σ V μ : Type} (ops : DatasetOps σ V) (w : CachedDataset σ V μ) (v : V) (s : σ)
    (hload : ops.load (ops.release w.dataset) = (Except.ok v, s)) :
    CachedDataset.release ops w = ⟨ops.release w.dataset, none, w.copyMode, w.metadata⟩ ∧
    MemoryDataset.mexists (CachedDataset.release ops w).cache = false ∧
    CachedDataset.load ops (CachedDataset.release ops w) =
      (Except.ok v, ⟨s, some v, w.copyMode, w.metadata⟩) := by
  refine ⟨?_, ?_, ?_⟩ <;>
    simp [CachedDataset.release, CachedDataset.load, MemoryDataset.mexists,
      MemoryDataset.mrelease, MemoryDataset.msave, hload]

/-- C7 instantiated: releasing the populated wrapper `w6` empties the cache
(the identity-release delegate state stays 0) and the next load re-reads 7
from the delegate. -/
theorem release_clears_cache_reloads_delegate_witness :
    CachedDataset.release opsCounting w6 = ⟨0, none, none, none⟩ ∧
    MemoryDataset.mexists (CachedDataset.release opsCounting w6).cache = false ∧
    CachedDataset.load opsCounting (CachedDataset.release opsCounting w6) =
      (Except.ok 7, ⟨1, some 7, none, none⟩) :=
  release_clears_cache_reloads_delegate opsCounting w6 7 1 rfl

/-- C8: a construction argument that is neither a dataset instance nor a
configuration mapping makes construction fail with `InvalidArgumentError`
(the wrong-argument-type `ValueError` raise site), for every factory,
version, copy mode and metadata, and no wrapper is returned. -/
theorem init_invalid_argument
    {σ V μ : Type}
    (factory : String → Config → Option String → Option String → Except KedroError σ)
    (version : Option Version) (cm : Option String) (md : Option μ) :
    (CachedDataset.init factory (DatasetArg.invalid : DatasetArg σ) version cm md
        : Except KedroError (CachedDataset σ V μ)) =
      Except.error (KedroError.invalidArgument invalidArgMsg) := rfl

/-- C9: successful construction is pure object construction.  The embedding
of `__init__` never receives the delegate's operations, so no delegate
`load`/`save`/`exists` call can occur; the theorem shows that for both
variants — a live dataset instance, and a declarative configuration with a
supplied version pair (which is marked versioned and handed to the factory
with the load/save version identifiers) — the result is exactly a wrapper
holding the untouched delegate state, a fresh empty cache, and the given
copy mode and metadata, with no other effect. -/
theorem init_no_delegate_io
    {σ V μ : Type}
    (factory : String → Config → Option String → Option String → Except KedroError σ)
    (d d2 : σ) (ver : Version) (config : Config)
    (cm : Option String) (md : Option μ)
    (hkey : config.hasKey VERSIONED_FLAG_KEY = false)
    (hfac : factory "_cached" (config.set VERSIONED_FLAG_KEY (CVal.bool true))
        ver.load ver.save = Except.ok d2) :
    (CachedDataset.init factory (DatasetArg.dataset d) (some ver) cm md
        : Except KedroError (CachedDataset σ V μ)) = Except.ok ⟨d, none, cm, md⟩ ∧
    (CachedDataset.init factory (DatasetArg.config config) (some ver) cm md
        : Except KedroError (CachedDataset σ V μ)) = Except.ok ⟨d2, none, cm, md⟩ := by
  refine ⟨rfl, ?_⟩
  simp [CachedDataset.init, CachedDataset.fromConfig, hkey, hfac]

/-- C9 instantiated: constructing from the live delegate state 11 and from
the unversioned configuration with a version pair both return a wrapper with
an empty cache and the delegate state untouched by any dataset operation. -/
theorem init_no_delegate_io_witness :
    (CachedDataset.init fac42 (DatasetArg.dataset 11) (some verA) none none
        : Except KedroError (CachedDataset Nat Nat Nat)) =
      Except.ok ⟨11, none, none, none⟩ ∧
    (CachedDataset.init fac42 (DatasetArg.config cfgT) (some verA) none none
        : Except KedroError (CachedDataset Nat Nat Nat)) =
      Except.ok ⟨42, none, none, none⟩ :=
  init_no_delegate_io fac42 11 42 verA cfgT none (none : Option Nat) (by decide) rfl

/-- C10: the duplicate-versioning rejection is keyed on the mere presence of
the reserved versioned key: for every value stored under it — a
configuration with the key explicitly set to false included — construction
fails with the same duplicate-versioning configuration error as with the
key set to true, for every factory and version argument. -/
theorem fromConfig_rejects_on_key_presence
    {σ V μ : Type}
    (factory : String → Config → Option String → Option String → Except KedroError σ)
    (version : Option Version) (val : CVal) (rest : Config)
    (cm : Option String) (md : Option μ) :
    CachedDataset.fromConfig factory ((VERSIONED_FLAG_KEY, val) :: rest) version =
      Except.error (KedroError.configurationError duplicateVersioningMsg) ∧
    CachedDataset.fromConfig factory ((VERSIONED_FLAG_KEY, CVal.bool false) :: rest) version =
      CachedDataset.fromConfig factory ((VERSIONED_FLAG_KEY, CVal.bool true) :: rest) version ∧
    (CachedDataset.init factory
        (DatasetArg.config ((VERSIONED_FLAG_KEY, CVal.bool false) :: rest)) version cm md
        : Except KedroError (CachedDataset σ V μ)) =
      Except.error (KedroError.configurationError duplicateVersioningMsg) := by
  refine ⟨?_, ?_, ?_⟩ <;>
    simp [CachedDataset.fromConfig, CachedDataset.init, Config.hasKey]
